import Mathlib

/-!
Verification of the automation engine of `src/src/main.js` (an Electron
input-automation utility).  The engine is embedded shallowly: the module-level
mutable variables (`autoClickerInterval`, `macroRecording`, `macroPlaying`,
`hotkeyPressed`, the `electron-store` contents) become fields of an explicit
`EngineState`, the IPC handlers and helper functions become pure state
transformers, and the Node timer service (`setInterval` / `setTimeout` /
`clearInterval`) becomes explicit lists of pending timers plus a
`fireTimeout` step that executes one pending one-shot callback.

Times and intervals are rationals (JS numbers used only through `+ * /` on
the values appearing here; the timed claims assume a positive speed, where
rational and JS division agree).  The fields `nextRun`, `nextHandle` and the
`dispatched` log are observation-only instrumentation: nothing in the
translated control flow reads them, they only record which `play` call a
timer belongs to and which actions have fired, so that cross-run properties
can be stated.
-/

namespace Engine

/-- A recorded/replayable input action, as consumed by the playback loop of
`main.js` lines 189-198: `{type: 'click', x, y, button?}` dispatches
`moveMouse(x, y); mouseClick(button || 'left')`, `{type: 'key', key}`
dispatches `keyTap(key)`. -/
inductive Action where
  | click (x y : Int) (button : Option String)
  | key (k : String)
deriving DecidableEq, Repr

/-- The settings object kept under the `settings` key of the store
(`main.js` lines 134-142 list the defaulted shape).  Fields are optional:
the raw stored object may lack any of them, and the handlers apply their
own `|| default` fallbacks at each use site. -/
structure Settings where
  autoClickerSpeed : Option ℚ
  autoClickerHotkey : Option String
  macroRecordHotkey : Option String
  macroPlaybackHotkey : Option String
  macroSpeed : Option ℚ
  hotkeyButton : Option String
  hotkeyMode : Option String
deriving DecidableEq, Repr

/-- The `electron-store` contents used by the engine: the `settings` object
(absent until first saved; `store.get('settings', \x7b\x7d)` then yields the
empty object, i.e. all-fields-absent) and the `lastMacro` key
(`store.get('lastMacro', [])` defaults to the empty list, so it is modelled
as a plain list initially empty). -/
structure Store where
  settings : Option Settings
  lastMacroSeq : List Action
deriving DecidableEq, Repr

/-- A pending one-shot timer registered with `setTimeout` by the `play-macro`
handler: either one action dispatch (line 190) or one `playMacroOnce`
repetition callback (line 201).  `fireAt` is the nominal absolute fire time;
`runId` tags the `play-macro` call that registered it; a repetition carries
the closure state of its run (`macro`, `speed`, `maxPlays` with `none`
standing for `Infinity`, and the `playCount` value the callback will read). -/
inductive Timeout where
  | dispatch (fireAt : ℚ) (runId : ℕ) (a : Action)
  | rep (fireAt : ℚ) (runId : ℕ) (seq : List Action) (speed : ℚ)
      (maxPlays : Option Int) (playCount : ℕ)
deriving DecidableEq, Repr

/-- The module-level mutable state of `main.js` plus the timer service. -/
structure EngineState where
  store : Store
  /-- `autoClickerInterval` (line 14): handle of the active repeating timer,
  `none` when cleared (`null` in JS). -/
  autoClickerInterval : Option ℕ
  /-- Live `setInterval` registrations of the auto clicker: handle and
  interval.  Every tick performs `robot.mouseClick('left')`. -/
  intervalTimers : List (ℕ × ℚ)
  nextHandle : ℕ
  /-- `macroRecording` (line 15). -/
  macroRecording : List Action
  /-- `macroPlaying` (line 16). -/
  macroPlaying : Bool
  /-- `hotkeyPressed` (line 17). -/
  hotkeyPressed : Bool
  /-- Pending `setTimeout` registrations of macro playback. -/
  timeouts : List Timeout
  /-- Observation log: (fire time, run id, action) for every action-dispatch
  timer that has fired. -/
  dispatched : List (ℚ × ℕ × Action)
  nextRun : ℕ
deriving DecidableEq, Repr

/-- State at process start: all flags false, no timers, empty recording. -/
def initialState : EngineState where
  store := { settings := none, lastMacroSeq := [] }
  autoClickerInterval := none
  intervalTimers := []
  nextHandle := 0
  macroRecording := []
  macroPlaying := false
  hotkeyPressed := false
  timeouts := []
  dispatched := []
  nextRun := 0

/-- All-fields-absent settings: what `store.get('settings', \x7b\x7d)` yields
before anything was saved. -/
def Settings.empty : Settings where
  autoClickerSpeed := none
  autoClickerHotkey := none
  macroRecordHotkey := none
  macroPlaybackHotkey := none
  macroSpeed := none
  hotkeyButton := none
  hotkeyMode := none

/-- `store.get('settings', \x7b\x7d)` as used inside the handlers. -/
def currentSettings (s : EngineState) : Settings :=
  s.store.settings.getD Settings.empty

/-- `clearInterval(h)`: cancel the repeating timer with this handle. -/
def clearInterval (h : ℕ) (l : List (ℕ × ℚ)) : List (ℕ × ℚ) :=
  l.filter (fun p => p.1 ≠ h)

/-- `stopAutoClicker` (`main.js` lines 227-232): if a handle is tracked,
clear that interval and null the handle; otherwise do nothing. -/
def stopAutoClicker (s : EngineState) : EngineState :=
  match s.autoClickerInterval with
  | some h =>
      { s with intervalTimers := clearInterval h s.intervalTimers
               autoClickerInterval := none }
  | none => s

/-- The `start-auto-clicker` IPC handler (`main.js` lines 150-157): stop any
existing run, register a fresh repeating timer with the given interval
(no validation of `speed`), track its handle, return `true`. -/
def startAutoClicker (speed : ℚ) (s : EngineState) : Bool × EngineState :=
  let s1 := stopAutoClicker s
  let h := s1.nextHandle
  (true, { s1 with autoClickerInterval := some h
                   intervalTimers := s1.intervalTimers ++ [(h, speed)]
                   nextHandle := h + 1 })

/-- Engine-to-host and engine-to-actuator effects emitted by the key
listener path: `webContents.send` notifications and `robotjs` calls. -/
inductive Effect where
  | notify (channel : String)
  | macroPlayed (seq : List Action) (speed : Option ℚ)
  | keyToggle (key : String) (dir : String)
deriving DecidableEq, Repr

/-- `toggleAutoClicker` (`main.js` lines 214-225): if a handle is tracked,
stop and notify `auto-clicker-stopped`; otherwise register a repeating
timer at `settings.autoClickerSpeed || 100` and notify
`auto-clicker-started`. -/
def toggleAutoClicker (s : EngineState) : EngineState × List Effect :=
  match s.autoClickerInterval with
  | some _ => (stopAutoClicker s, [Effect.notify "auto-clicker-stopped"])
  | none =>
      let st := currentSettings s
      let h := s.nextHandle
      ({ s with autoClickerInterval := some h
                intervalTimers := s.intervalTimers ++ [(h, st.autoClickerSpeed.getD 100)]
                nextHandle := h + 1 },
       [Effect.notify "auto-clicker-started"])

/-- The `start-macro-recording` IPC handler (`main.js` lines 164-168):
reset the in-progress sequence to empty and return `true`. -/
def startMacroRecording (s : EngineState) : Bool × EngineState :=
  (true, { s with macroRecording := [] })

/-- The `stop-macro-recording` IPC handler (`main.js` lines 170-173):
persist the current in-memory recording under `lastMacro` and return it. -/
def stopMacroRecording (s : EngineState) : List Action × EngineState :=
  (s.macroRecording,
   { s with store := { s.store with lastMacroSeq := s.macroRecording } })

/-- Modelled from the spec: `recordAction(action)` appends the action to the
in-progress sequence (spec section 4.3).  The repository's source does not
implement action capture at all — the comment at `src/src/main.js` line 166
says actual recording "would need more sophisticated event capture" — so
this collaborator-driven appender is taken from the spec's words. -/
def recordAction (a : Action) (s : EngineState) : EngineState :=
  { s with macroRecording := s.macroRecording ++ [a] }

/-- Feed a list of actions to `recordAction` in order. -/
def recordAll (as : List Action) (s : EngineState) : EngineState :=
  as.foldl (fun st a => recordAction a st) s

/-- The guard `playCount >= maxPlays` of `playMacroOnce` (line 183), with
`none` standing for `Infinity` (a finite count never reaches it). -/
def playDone (maxPlays : Option Int) (playCount : ℕ) : Bool :=
  match maxPlays with
  | none => false
  | some m => decide ((playCount : Int) ≥ m)

/-- One repetition callback: `playMacroOnce` of `main.js` lines 182-202, run
at absolute time `now`.  If the play count reached `maxPlays` or the shared
`macroPlaying` flag is down, clear the flag and return without scheduling
anything.  Otherwise register one dispatch timer per action, the one at
index `i` firing `i * (100 / speed)` ms from now, then register the next
repetition callback `seq.length * (100 / speed) + 100` ms from now with the
incremented play count. -/
def playMacroOnce (now : ℚ) (runId : ℕ) (seq : List Action) (speed : ℚ)
    (maxPlays : Option Int) (playCount : ℕ) (s : EngineState) : EngineState :=
  if playDone maxPlays playCount || !s.macroPlaying then
    { s with macroPlaying := false }
  else
    { s with timeouts :=
        s.timeouts
          ++ seq.enum.map
              (fun p => Timeout.dispatch (now + (p.1 : ℚ) * (100 / speed)) runId p.2)
          ++ [Timeout.rep (now + (seq.length : ℚ) * (100 / speed) + 100) runId
                seq speed maxPlays (playCount + 1)] }

/-- The `play-macro` IPC handler (`main.js` lines 175-206), invoked at
absolute time `now`: reject with `false` while a run is in flight; otherwise
raise the flag, set `maxPlays` to `Infinity` when `times` is `-1` and to
`times` otherwise, run the first `playMacroOnce` synchronously, and return
`true`. -/
def playMacroHandler (now : ℚ) (seq : List Action) (speed : ℚ) (times : Int)
    (s : EngineState) : Bool × EngineState :=
  if s.macroPlaying then (false, s)
  else
    let maxPlays : Option Int := if times = -1 then none else some times
    let runId := s.nextRun
    let s1 := { s with macroPlaying := true, nextRun := s.nextRun + 1 }
    (true, playMacroOnce now runId seq speed maxPlays 0 s1)

/-- The `stop-macro` IPC handler (`main.js` lines 208-211): lower the flag;
pending timers are not touched. -/
def stopMacroHandler (s : EngineState) : EngineState :=
  { s with macroPlaying := false }

/-- Execute one pending `setTimeout` callback: remove it from the pending
list, then run its body.  An action-dispatch timer performs its robot calls
(logged in `dispatched`) with no check of any flag; a repetition timer runs
`playMacroOnce` at its nominal fire time with its closure state. -/
def fireTimeout (t : Timeout) (s : EngineState) : EngineState :=
  let s0 := { s with timeouts := s.timeouts.erase t }
  match t with
  | .dispatch fireAt runId a =>
      { s0 with dispatched := s0.dispatched ++ [(fireAt, runId, a)] }
  | .rep fireAt runId seq speed maxPlays playCount =>
      playMacroOnce fireAt runId seq speed maxPlays playCount s0

/-- The `playMacro` helper (`main.js` lines 239-245), triggered by the
playback hotkey: if the persisted `lastMacro` is nonempty, notify the
renderer with it and the configured speed. -/
def playMacroFromStore (s : EngineState) : List Effect :=
  if s.store.lastMacroSeq.length > 0 then
    [Effect.macroPlayed s.store.lastMacroSeq (currentSettings s).macroSpeed]
  else []

/-- A raw key transition delivered by the global key listener. -/
inductive KeyState where
  | down
  | up
deriving DecidableEq, Repr

/-- The listener callback of `setupGlobalKeyListener` (`main.js` lines
89-129), as a function of the incoming transition and the engine state,
returning the new state and the effects issued, or `none` where the JS
would throw (`settings.hotkeyButton.toLowerCase()` with the button unset).
On DOWN it runs, in order: the auto-clicker toggle, the record toggle, the
playback trigger (each guarded by its hotkey match with its default), then
the hotkey-clicker branch — `hold` mode emits a synthetic key-down, `toggle`
mode flips `hotkeyPressed` and emits key-down when it became true, key-up
when it became false, and any other mode does nothing.  On UP only the
hotkey-clicker release runs, and only in `hold` mode. -/
def keyListenerStep (name : String) (ks : KeyState) (s : EngineState) :
    Option (EngineState × List Effect) :=
  let st := currentSettings s
  match ks with
  | .down =>
      let (s, eff) :=
        if name = st.autoClickerHotkey.getD "F1" then toggleAutoClicker s
        else (s, [])
      let eff := eff ++
        (if name = st.macroRecordHotkey.getD "F2" then
          [Effect.notify "macro-recording-toggled"] else [])
      let eff := eff ++
        (if name = st.macroPlaybackHotkey.getD "F3" then playMacroFromStore s
         else [])
      if name = st.hotkeyButton.getD "F" then
        if st.hotkeyMode = some "hold" then
          match st.hotkeyButton with
          | some btn => some (s, eff ++ [Effect.keyToggle btn.toLower "down"])
          | none => none
        else if st.hotkeyMode = some "toggle" then
          match st.hotkeyButton with
          | some btn =>
              let hp := !s.hotkeyPressed
              some ({ s with hotkeyPressed := hp },
                eff ++ [Effect.keyToggle btn.toLower (if hp then "down" else "up")])
          | none => none
        else some (s, eff)
      else some (s, eff)
  | .up =>
      if name = st.hotkeyButton.getD "F" ∧ st.hotkeyMode = some "hold" then
        match st.hotkeyButton with
        | some btn => some (s, [Effect.keyToggle btn.toLower "up"])
        | none => none
      else some (s, [])

/-- A state with a playback run in flight (used to instantiate theorems). -/
def busyState : EngineState :=
  { initialState with macroPlaying := true }

/-- C1: for every macro sequence and positive speed, a repetition that starts
at time `now` and is not cut off schedules the action at index `i` to fire
`i * (100 / speed)` ms after `now`, and schedules the next repetition to
start `seq.length * (100 / speed) + 100` ms after `now`. -/
theorem playMacroOnce_schedule (now : ℚ) (runId : ℕ) (seq : List Action)
    (speed : ℚ) (maxPlays : Option Int) (playCount : ℕ) (s : EngineState)
    (hspeed : 0 < speed) (hplay : s.macroPlaying = true)
    (hnotdone : playDone maxPlays playCount = false) :
    (∀ i, ∀ hi : i < seq.length,
        Timeout.dispatch (now + (i : ℚ) * (100 / speed)) runId (seq.get ⟨i, hi⟩)
          ∈ (playMacroOnce now runId seq speed maxPlays playCount s).timeouts) ∧
    Timeout.rep (now + (seq.length : ℚ) * (100 / speed) + 100) runId seq speed
        maxPlays (playCount + 1)
      ∈ (playMacroOnce now runId seq speed maxPlays playCount s).timeouts := by
  unfold playMacroOnce
  rw [hnotdone, hplay]
  simp only [Bool.not_true, Bool.or_false, if_neg (by simp : ¬(false = true))]
  constructor
  · intro i hi
    simp only [List.mem_append, List.mem_map]
    refine Or.inl (Or.inr ⟨(i, seq.get ⟨i, hi⟩), ?_, rfl⟩)
    rw [List.mk_mem_enum_iff_get?]
    exact List.get?_eq_get hi
  · simp

/-- C1 witness: concrete instance with a two-action sequence at speed 2. -/
theorem playMacroOnce_schedule_witness :
    (0 : ℚ) < 2 ∧ busyState.macroPlaying = true ∧ playDone (some 3) 1 = false ∧
    Timeout.dispatch (0 + (1 : ℚ) * (100 / 2)) 0
        (([Action.key "a", Action.key "b"] : List Action).get ⟨1, by decide⟩)
      ∈ (playMacroOnce 0 0 [Action.key "a", Action.key "b"] 2 (some 3) 1
          busyState).timeouts ∧
    Timeout.rep (0 + ((([Action.key "a", Action.key "b"] : List Action).length : ℚ))
          * (100 / 2) + 100) 0 [Action.key "a", Action.key "b"] 2 (some 3) 2
      ∈ (playMacroOnce 0 0 [Action.key "a", Action.key "b"] 2 (some 3) 1
          busyState).timeouts :=
  ⟨by norm_num, rfl, rfl,
   (playMacroOnce_schedule 0 0 [Action.key "a", Action.key "b"] 2 (some 3) 1
      busyState (by norm_num) rfl rfl).1 1 (by decide),
   (playMacroOnce_schedule 0 0 [Action.key "a", Action.key "b"] 2 (some 3) 1
      busyState (by norm_num) rfl rfl).2⟩

/-- C2: a `play-macro` call while a run is in flight returns `false` and
leaves the whole engine state unchanged; when no run is in flight the call
returns `true`. -/
theorem playMacroHandler_overlap (now : ℚ) (seq : List Action) (speed : ℚ)
    (times : Int) (s : EngineState) :
    (s.macroPlaying = true → playMacroHandler now seq speed times s = (false, s)) ∧
    (s.macroPlaying = false → (playMacroHandler now seq speed times s).1 = true) := by
  constructor <;> intro h <;> simp [playMacroHandler, h]

/-- C2 witness: a busy state rejects with the state untouched; the initial
state accepts. -/
theorem playMacroHandler_overlap_witness :
    busyState.macroPlaying = true ∧
    playMacroHandler 0 [Action.key "a"] 1 2 busyState = (false, busyState) ∧
    initialState.macroPlaying = false ∧
    (playMacroHandler 0 [Action.key "a"] 1 2 initialState).1 = true :=
  ⟨rfl, (playMacroHandler_overlap 0 [Action.key "a"] 1 2 busyState).1 rfl,
   rfl, (playMacroHandler_overlap 0 [Action.key "a"] 1 2 initialState).2 rfl⟩

/-- C3: once the in-flight flag is down, a repetition callback that fires
removes only itself (no action dispatch is scheduled, the dispatch log is
unchanged) and the flag stays down; an action-dispatch timer that is already
scheduled fires its action regardless of the flag; and an indefinite run
(`times = -1`, `maxPlays = Infinity`) whose flag is still up always schedules
its next repetition. -/
theorem macroStop_semantics :
    (∀ (fireAt : ℚ) (runId : ℕ) (seq : List Action) (speed : ℚ)
        (maxPlays : Option Int) (playCount : ℕ) (s : EngineState),
        s.macroPlaying = false →
        (fireTimeout (Timeout.rep fireAt runId seq speed maxPlays playCount) s).timeouts
            = s.timeouts.erase (Timeout.rep fireAt runId seq speed maxPlays playCount) ∧
        (fireTimeout (Timeout.rep fireAt runId seq speed maxPlays playCount) s).dispatched
            = s.dispatched ∧
        (fireTimeout (Timeout.rep fireAt runId seq speed maxPlays playCount)
            s).macroPlaying = false) ∧
    (∀ (fireAt : ℚ) (runId : ℕ) (a : Action) (s : EngineState),
        (fireTimeout (Timeout.dispatch fireAt runId a) s).dispatched
          = s.dispatched ++ [(fireAt, runId, a)]) ∧
    (∀ (fireAt : ℚ) (runId : ℕ) (seq : List Action) (speed : ℚ) (playCount : ℕ)
        (s : EngineState), s.macroPlaying = true →
        Timeout.rep (fireAt + (seq.length : ℚ) * (100 / speed) + 100) runId seq
            speed none (playCount + 1)
          ∈ (fireTimeout (Timeout.rep fireAt runId seq speed none playCount)
              s).timeouts) := by
  refine ⟨?_, ?_, ?_⟩
  · intro fireAt runId seq speed maxPlays playCount s h
    simp [fireTimeout, playMacroOnce, h]
  · intro fireAt runId a s
    simp [fireTimeout]
  · intro fireAt runId seq speed playCount s h
    simp [fireTimeout, playMacroOnce, playDone, h]

/-- C3 witness: a stopped state swallows a pending repetition; a busy
indefinite run schedules the next repetition. -/
theorem macroStop_semantics_witness :
    initialState.macroPlaying = false ∧ busyState.macroPlaying = true ∧
    (fireTimeout (Timeout.rep 200 0 [Action.key "a"] 1 none 1)
        initialState).dispatched = initialState.dispatched ∧
    Timeout.rep (200 + (([Action.key "a"] : List Action).length : ℚ) * (100 / 1)
          + 100) 0 [Action.key "a"] 1 none 2
      ∈ (fireTimeout (Timeout.rep 200 0 [Action.key "a"] 1 none 1)
          busyState).timeouts :=
  ⟨rfl, rfl,
   (macroStop_semantics.1 200 0 [Action.key "a"] 1 none 1 initialState rfl).2.1,
   macroStop_semantics.2.2 200 0 [Action.key "a"] 1 1 busyState rfl⟩

/-- C9: with no run in flight, `play-macro` with `times = 0` returns `true`
while scheduling no timer and dispatching nothing, and the in-flight flag is
back to `false` when the call returns: the play-count guard runs before any
dispatch. -/
theorem playMacroHandler_zero_times (now : ℚ) (seq : List Action) (speed : ℚ)
    (s : EngineState) (h : s.macroPlaying = false) :
    (playMacroHandler now seq speed 0 s).1 = true ∧
    (playMacroHandler now seq speed 0 s).2.macroPlaying = false ∧
    (playMacroHandler now seq speed 0 s).2.timeouts = s.timeouts ∧
    (playMacroHandler now seq speed 0 s).2.dispatched = s.dispatched := by
  simp [playMacroHandler, h, playMacroOnce, playDone]

/-- C9 witness: concrete zero-repetition playback from the initial state. -/
theorem playMacroHandler_zero_times_witness :
    initialState.macroPlaying = false ∧
    (playMacroHandler 0 [Action.key "a"] 1 0 initialState).1 = true ∧
    (playMacroHandler 0 [Action.key "a"] 1 0 initialState).2.macroPlaying = false ∧
    (playMacroHandler 0 [Action.key "a"] 1 0 initialState).2.timeouts
      = initialState.timeouts :=
  ⟨rfl, (playMacroHandler_zero_times 0 [Action.key "a"] 1 initialState rfl).1,
   (playMacroHandler_zero_times 0 [Action.key "a"] 1 initialState rfl).2.1,
   (playMacroHandler_zero_times 0 [Action.key "a"] 1 initialState rfl).2.2.1⟩

/-- Feeding a list of actions to `recordAction` appends them in call order. -/
theorem recordAll_macroRecording (as : List Action) (s : EngineState) :
    (recordAll as s).macroRecording = s.macroRecording ++ as := by
  induction as generalizing s with
  | nil => simp [recordAll]
  | cons a as ih =>
      show (recordAll as (recordAction a s)).macroRecording = _
      rw [ih]
      simp [recordAction]

/-- `recordAction` touches nothing but the in-progress sequence, so the
store survives a whole recording session unchanged until stop persists. -/
theorem recordAll_store (as : List Action) (s : EngineState) :
    (recordAll as s).store = s.store := by
  induction as generalizing s with
  | nil => rfl
  | cons a as ih =>
      show (recordAll as (recordAction a s)).store = _
      rw [ih]
      rfl

/-- C8: after `start-macro-recording`, any series of `recordAction` calls
accumulates exactly those actions in call order; `stop-macro-recording` then
returns them in that order and persists them under `lastMacro`; and from a
state that never started recording (in-memory sequence still empty) stop
returns the empty sequence. -/
theorem recording_roundtrip (s : EngineState) (as : List Action) :
    ((stopMacroRecording (recordAll as (startMacroRecording s).2)).1 = as ∧
     (stopMacroRecording (recordAll as
         (startMacroRecording s).2)).2.store.lastMacroSeq = as) ∧
    (s.macroRecording = [] → (stopMacroRecording s).1 = []) := by
  have hrec : (recordAll as (startMacroRecording s).2).macroRecording = as := by
    rw [recordAll_macroRecording]
    simp [startMacroRecording]
  exact ⟨⟨by simp [stopMacroRecording, hrec], by simp [stopMacroRecording, hrec]⟩,
    fun h => by simp [stopMacroRecording, h]⟩

/-- C8 witness: record two concrete actions and stop; stop with no prior
start from the initial state. -/
theorem recording_roundtrip_witness :
    (stopMacroRecording (recordAll [Action.key "x", Action.click 3 4 none]
        (startMacroRecording initialState).2)).1
      = [Action.key "x", Action.click 3 4 none] ∧
    (stopMacroRecording (recordAll [Action.key "x", Action.click 3 4 none]
        (startMacroRecording initialState).2)).2.store.lastMacroSeq
      = [Action.key "x", Action.click 3 4 none] ∧
    initialState.macroRecording = [] ∧
    (stopMacroRecording initialState).1 = [] :=
  ⟨(recording_roundtrip initialState [Action.key "x", Action.click 3 4 none]).1.1,
   (recording_roundtrip initialState [Action.key "x", Action.click 3 4 none]).1.2,
   rfl,
   (recording_roundtrip initialState [Action.key "x", Action.click 3 4 none]).2 rfl⟩

/-- C10: `stop-macro-recording` overwrites the persisted `lastMacro` with the
current in-memory recording and changes nothing else — settings, auto-clicker
state, playback flag, pending timers and the in-memory recording itself all
survive; when no recording was ever started (in-memory sequence empty) any
previously persisted macro is replaced by the empty sequence. -/
theorem stopMacroRecording_frame (s : EngineState) :
    (stopMacroRecording s).1 = s.macroRecording ∧
    (stopMacroRecording s).2.store.lastMacroSeq = s.macroRecording ∧
    (stopMacroRecording s).2.store.settings = s.store.settings ∧
    (stopMacroRecording s).2.autoClickerInterval = s.autoClickerInterval ∧
    (stopMacroRecording s).2.intervalTimers = s.intervalTimers ∧
    (stopMacroRecording s).2.nextHandle = s.nextHandle ∧
    (stopMacroRecording s).2.macroRecording = s.macroRecording ∧
    (stopMacroRecording s).2.macroPlaying = s.macroPlaying ∧
    (stopMacroRecording s).2.hotkeyPressed = s.hotkeyPressed ∧
    (stopMacroRecording s).2.timeouts = s.timeouts ∧
    (s.macroRecording = [] → (stopMacroRecording s).2.store.lastMacroSeq = []) := by
  refine ⟨rfl, rfl, rfl, rfl, rfl, rfl, rfl, rfl, rfl, rfl, fun h => ?_⟩
  simp [stopMacroRecording, h]

/-- C10 witness: a state with a previously persisted macro and no recording
in memory; stop replaces the persisted macro with the empty sequence. -/
theorem stopMacroRecording_frame_witness :
    ({ initialState with
        store := { settings := none,
                   lastMacroSeq := [Action.key "old"] } } :
      EngineState).macroRecording = [] ∧
    (stopMacroRecording { initialState with
        store := { settings := none,
                   lastMacroSeq := [Action.key "old"] } }).2.store.lastMacroSeq
      = [] :=
  ⟨rfl,
   (stopMacroRecording_frame { initialState with
      store := { settings := none,
                 lastMacroSeq := [Action.key "old"] } }).2.2.2.2.2.2.2.2.2.2 rfl⟩

/-- The auto-clicker invariant of the spec: the tracked handle and the live
interval-timer registry agree, with at most one live timer. -/
def clickerInv (s : EngineState) : Prop :=
  (s.autoClickerInterval = none → s.intervalTimers = []) ∧
  (∀ h, s.autoClickerInterval = some h → ∃ iv, s.intervalTimers = [(h, iv)])

/-- C7: every auto-clicker operation preserves the single-active-timer
invariant: `start` cancels any live timer before registering exactly the new
one (replace semantics), `stop` leaves no live timer, and `toggle` ends with
no live timer when one was active and with exactly one fresh timer (at the
configured speed, default 100) when none was. -/
theorem autoClicker_single_timer (s : EngineState) (iv : ℚ) (h : clickerInv s) :
    ((startAutoClicker iv s).2.intervalTimers = [(s.nextHandle, iv)] ∧
     clickerInv (startAutoClicker iv s).2) ∧
    ((stopAutoClicker s).intervalTimers = [] ∧ clickerInv (stopAutoClicker s)) ∧
    (clickerInv (toggleAutoClicker s).1 ∧
     (toggleAutoClicker s).1.intervalTimers.length ≤ 1 ∧
     (s.autoClickerInterval.isSome = true →
        (toggleAutoClicker s).1.intervalTimers = []) ∧
     (s.autoClickerInterval = none →
        (toggleAutoClicker s).1.intervalTimers
          = [(s.nextHandle, (currentSettings s).autoClickerSpeed.getD 100)])) := by
  obtain ⟨hnone, hsome⟩ := h
  have hstop : (stopAutoClicker s).intervalTimers = []
      ∧ (stopAutoClicker s).autoClickerInterval = none
      ∧ (stopAutoClicker s).nextHandle = s.nextHandle := by
    cases hac : s.autoClickerInterval with
    | none => simp [stopAutoClicker, hac, hnone hac]
    | some hd =>
        obtain ⟨iv0, hiv0⟩ := hsome hd hac
        simp [stopAutoClicker, hac, hiv0, clearInterval]
  refine ⟨⟨?_, ?_⟩, ⟨hstop.1, ?_⟩, ?_, ?_, ?_, ?_⟩
  · simp [startAutoClicker, hstop.1, hstop.2.2]
  · refine ⟨fun hcontra => ?_, fun h2 hh2 => ?_⟩
    · simp [startAutoClicker] at hcontra
    · simp [startAutoClicker, hstop.1, hstop.2.2] at hh2 ⊢
      subst hh2
      simp [startAutoClicker, hstop.1, hstop.2.2]
  · exact ⟨fun _ => hstop.1, fun h2 hh2 => by rw [hstop.2.1] at hh2; cases hh2⟩
  · cases hac : s.autoClickerInterval with
    | none =>
        refine ⟨fun hcontra => ?_, fun h2 hh2 => ?_⟩
        · simp [toggleAutoClicker, hac] at hcontra
        · simp [toggleAutoClicker, hac] at hh2
          subst hh2
          simp [toggleAutoClicker, hac, hnone hac]
    | some hd =>
        refine ⟨fun _ => ?_, fun h2 hh2 => ?_⟩
        · obtain ⟨iv0, hiv0⟩ := hsome hd hac
          simp [toggleAutoClicker, hac, stopAutoClicker, hiv0, clearInterval]
        · simp [toggleAutoClicker, hac, stopAutoClicker] at hh2
  · cases hac : s.autoClickerInterval with
    | none => simp [toggleAutoClicker, hac, hnone hac]
    | some hd =>
        obtain ⟨iv0, hiv0⟩ := hsome hd hac
        simp [toggleAutoClicker, hac, stopAutoClicker, hiv0, clearInterval]
  · intro hac
    cases hac2 : s.autoClickerInterval with
    | none => rw [hac2] at hac; cases hac
    | some hd =>
        obtain ⟨iv0, hiv0⟩ := hsome hd hac2
        simp [toggleAutoClicker, hac2, stopAutoClicker, hiv0, clearInterval]
  · intro hac
    simp [toggleAutoClicker, hac, hnone hac]

/-- C7 witness: a well-formed state with one active timer; toggling it
leaves no live timer. -/
theorem autoClicker_single_timer_witness :
    clickerInv { initialState with
        autoClickerInterval := some 0, intervalTimers := [(0, 100)],
        nextHandle := 1 } ∧
    (toggleAutoClicker { initialState with
        autoClickerInterval := some 0, intervalTimers := [(0, 100)],
        nextHandle := 1 }).1.intervalTimers = [] := by
  have hinv : clickerInv { initialState with
      autoClickerInterval := some 0, intervalTimers := [(0, 100)],
      nextHandle := 1 } := by
    constructor
    · intro h; cases h
    · intro h2 hh2
      cases hh2
      exact ⟨100, rfl⟩
  exact ⟨hinv,
    (autoClicker_single_timer { initialState with
        autoClickerInterval := some 0, intervalTimers := [(0, 100)],
        nextHandle := 1 } 55 hinv).2.2.2.2.1 rfl⟩

/-- C6: for the bound hotkey button (distinct from the three toggle
hotkeys): in hold mode a physical DOWN emits a synthetic key-down and a
physical UP emits a synthetic key-up, with engine state untouched; in toggle
mode each physical DOWN flips `hotkeyPressed` and emits key-down exactly
when the flag became true and key-up when it became false, while a physical
UP emits nothing and changes nothing. -/
theorem hotkeyButton_modes (s : EngineState) (st : Settings) (b : String)
    (hst : s.store.settings = some st) (hb : st.hotkeyButton = some b)
    (h1 : b ≠ st.autoClickerHotkey.getD "F1")
    (h2 : b ≠ st.macroRecordHotkey.getD "F2")
    (h3 : b ≠ st.macroPlaybackHotkey.getD "F3") :
    (st.hotkeyMode = some "hold" →
       keyListenerStep b KeyState.down s
         = some (s, [Effect.keyToggle b.toLower "down"]) ∧
       keyListenerStep b KeyState.up s
         = some (s, [Effect.keyToggle b.toLower "up"])) ∧
    (st.hotkeyMode = some "toggle" →
       keyListenerStep b KeyState.down s
         = some ({ s with hotkeyPressed := !s.hotkeyPressed },
             [Effect.keyToggle b.toLower
                (if !s.hotkeyPressed then "down" else "up")]) ∧
       keyListenerStep b KeyState.up s = some (s, [])) := by
  have hcs : currentSettings s = st := by simp [currentSettings, hst]
  constructor
  · intro hmode
    constructor
    · simp [keyListenerStep, hcs, hb, h1, h2, h3, hmode]
    · simp [keyListenerStep, hcs, hb, hmode]
  · intro hmode
    have hss : ¬ (("toggle" : String) = "hold") := by decide
    have hne : st.hotkeyMode ≠ some "hold" := by
      rw [hmode]
      intro hcontra
      exact hss (Option.some.inj hcontra)
    constructor
    · simp [keyListenerStep, hcs, hb, h1, h2, h3, hmode, hne]
    · simp [keyListenerStep, hcs, hb, hmode, hne, hss]

/-- Concrete settings binding key G in hold mode. -/
def holdSettings : Settings :=
  { Settings.empty with hotkeyButton := some "G", hotkeyMode := some "hold" }

/-- Concrete settings binding key G in toggle mode. -/
def toggleSettings : Settings :=
  { Settings.empty with hotkeyButton := some "G", hotkeyMode := some "toggle" }

/-- C6 witness: with G bound, hold-mode DOWN emits key-down; toggle-mode
DOWN from the released state flips the flag on and emits key-down while UP
does nothing. -/
theorem hotkeyButton_modes_witness :
    keyListenerStep "G" KeyState.down
        { initialState with store := { settings := some holdSettings,
                                       lastMacroSeq := [] } }
      = some ({ initialState with store := { settings := some holdSettings,
                                             lastMacroSeq := [] } },
          [Effect.keyToggle ("G").toLower "down"]) ∧
    keyListenerStep "G" KeyState.down
        { initialState with store := { settings := some toggleSettings,
                                       lastMacroSeq := [] } }
      = some ({ { initialState with store := { settings := some toggleSettings,
                                               lastMacroSeq := [] } } with
            hotkeyPressed := !({ initialState with
                store := { settings := some toggleSettings,
                           lastMacroSeq := [] } } : EngineState).hotkeyPressed },
          [Effect.keyToggle ("G").toLower
            (if !({ initialState with
                store := { settings := some toggleSettings,
                           lastMacroSeq := [] } } : EngineState).hotkeyPressed
             then "down" else "up")]) ∧
    keyListenerStep "G" KeyState.up
        { initialState with store := { settings := some toggleSettings,
                                       lastMacroSeq := [] } }
      = some ({ initialState with store := { settings := some toggleSettings,
                                             lastMacroSeq := [] } }, []) :=
  ⟨((hotkeyButton_modes { initialState with
        store := { settings := some holdSettings, lastMacroSeq := [] } }
      holdSettings "G" rfl rfl (by decide) (by decide) (by decide)).1 rfl).1,
   ((hotkeyButton_modes { initialState with
        store := { settings := some toggleSettings, lastMacroSeq := [] } }
      toggleSettings "G" rfl rfl (by decide) (by decide) (by decide)).2 rfl).1,
   ((hotkeyButton_modes { initialState with
        store := { settings := some toggleSettings, lastMacroSeq := [] } }
      toggleSettings "G" rfl rfl (by decide) (by decide) (by decide)).2 rfl).2⟩

/-- One-action sequence of the first (later stopped) playback run. -/
def runA : List Action := [Action.key "a"]

/-- One-action sequence of the second playback run. -/
def runB : List Action := [Action.key "b"]

/-- The execution that exhibits the stale-repetition flaw, step by step.
Start an indefinite run of `runA` at time 0 (run id 0); its single action is
pending at 0 and its second repetition at `1 * (100/1) + 100 = 200`. -/
def staleS1 : EngineState := (playMacroHandler 0 runA 1 (-1) initialState).2

/-- Run A's action fires at time 0. -/
def staleS2 : EngineState :=
  fireTimeout (Timeout.dispatch 0 0 (Action.key "a")) staleS1

/-- `stop-macro` is called: the flag goes down, but run A's repetition timer
(due at 200) stays pending. -/
def staleS3 : EngineState := stopMacroHandler staleS2

/-- A second `play-macro` at time 50 (run id 1) is accepted, since the flag
is down; run B's action is pending at 50 and its second repetition at 250. -/
def staleS4 : EngineState := (playMacroHandler 50 runB 1 (-1) staleS3).2

/-- Run B's action fires at time 50. -/
def staleS5 : EngineState :=
  fireTimeout (Timeout.dispatch 50 1 (Action.key "b")) staleS4

/-- At time 200 the *stopped* run A's leftover repetition timer fires.  Its
callback re-reads the shared `macroPlaying` flag — which run B raised again
— so instead of terminating it dispatches run A's action and schedules run
A's next repetition at 400. -/
def staleS6 : EngineState :=
  fireTimeout (Timeout.rep 200 0 runA 1 none 1) staleS5

/-- Run A's resumed action fires at time 200. -/
def staleS7 : EngineState :=
  fireTimeout (Timeout.dispatch 200 0 (Action.key "a")) staleS6

/-- Run B's second repetition fires at 250 and schedules normally. -/
def staleS8 : EngineState :=
  fireTimeout (Timeout.rep 250 1 runB 1 none 1) staleS7

/-- Run B's second action fires at time 250. -/
def staleS9 : EngineState :=
  fireTimeout (Timeout.dispatch 250 1 (Action.key "b")) staleS8

/-- C4 refutation: along the play-A / stop / play-B trace above, the engine
dispatches actions of run 0 and run 1 interleaved in time — a, b, a, b at
times 0, 50, 200, 250 — with the stale run rescheduled (repetition of run 0
due at 400 pending right after the stale callback) while run 1 is mid-run:
two distinct `play-macro` calls dispatch actions concurrently, so the code
does not maintain the at-most-one-run-in-flight invariant. -/
theorem stale_repetition_resumes :
    staleS9.dispatched
      = [(0, 0, Action.key "a"), (50, 1, Action.key "b"),
         (200, 0, Action.key "a"), (250, 1, Action.key "b")] ∧
    staleS9.macroPlaying = true ∧
    Timeout.dispatch 200 0 (Action.key "a") ∈ staleS6.timeouts ∧
    Timeout.rep 400 0 runA 1 none 2 ∈ staleS6.timeouts := by
  refine ⟨?_, ?_, ?_, ?_⟩ <;>
    simp [staleS9, staleS8, staleS7, staleS6, staleS5, staleS4, staleS3,
      staleS2, staleS1, fireTimeout, playMacroHandler, playMacroOnce,
      stopMacroHandler, playDone, initialState, runA, runB] <;>
    norm_num

/-- C5 refutation: `start-auto-clicker` with the non-positive interval 0 is
not rejected — it returns `true` and a repeating timer with interval 0 is
registered and tracked. -/
theorem startAutoClicker_nonpositive_accepted :
    (startAutoClicker 0 initialState).1 = true ∧
    (startAutoClicker 0 initialState).2.intervalTimers = [(0, 0)] ∧
    (startAutoClicker 0 initialState).2.autoClickerInterval = some 0 := by
  refine ⟨rfl, ?_, rfl⟩
  decide

/-- `stopAutoClicker` never changes the handle counter. -/
theorem stopAutoClicker_nextHandle (s : EngineState) :
    (stopAutoClicker s).nextHandle = s.nextHandle := by
  cases hac : s.autoClickerInterval <;> simp [stopAutoClicker, hac]

/-- C5 amended: neither handler validates its argument.  For any
non-positive interval, `start-auto-clicker` returns `true`, registers a
repeating timer with exactly that interval and tracks its handle; for any
non-positive speed, `play-macro` on an idle engine returns `true` rather
than rejecting. -/
theorem nonpositive_arguments_not_rejected (iv speed : ℚ) (hiv : iv ≤ 0)
    (hspeed : speed ≤ 0) (now : ℚ) (seq : List Action) (times : Int)
    (s : EngineState) (hplay : s.macroPlaying = false) :
    (startAutoClicker iv s).1 = true ∧
    (s.nextHandle, iv) ∈ (startAutoClicker iv s).2.intervalTimers ∧
    (startAutoClicker iv s).2.autoClickerInterval = some s.nextHandle ∧
    (playMacroHandler now seq speed times s).1 = true := by
  refine ⟨rfl, ?_, ?_, (playMacroHandler_overlap now seq speed times s).2 hplay⟩
  · simp [startAutoClicker, stopAutoClicker_nextHandle]
  · simp [startAutoClicker, stopAutoClicker_nextHandle]

/-- C5 amended witness: interval -5 and speed 0 are both accepted from the
initial state. -/
theorem nonpositive_arguments_not_rejected_witness :
    (-5 : ℚ) ≤ 0 ∧ (0 : ℚ) ≤ 0 ∧ initialState.macroPlaying = false ∧
    (startAutoClicker (-5) initialState).1 = true ∧
    (initialState.nextHandle, (-5 : ℚ))
      ∈ (startAutoClicker (-5) initialState).2.intervalTimers ∧
    (playMacroHandler 0 [Action.key "a"] 0 1 initialState).1 = true :=
  ⟨by norm_num, le_refl 0, rfl,
   (nonpositive_arguments_not_rejected (-5) 0 (by norm_num) (le_refl 0) 0
      [Action.key "a"] 1 initialState rfl).1,
   (nonpositive_arguments_not_rejected (-5) 0 (by norm_num) (le_refl 0) 0
      [Action.key "a"] 1 initialState rfl).2.1,
   (nonpositive_arguments_not_rejected (-5) 0 (by norm_num) (le_refl 0) 0
      [Action.key "a"] 1 initialState rfl).2.2.2⟩

end Engine
